import Mathlib

/-!
qml-websocket: the connection handler and the client worker.

A shallow embedding of `src/qmlwebsocket/src/WebSocketWrapper.cpp`.

* `WebSocketWrapperPrivate` is the connection handler: the callbacks
  `on_fail`, `on_open`, `on_close`, the two `on_message` overloads, and the
  commands `send` and `close`.
* `WebSocketWrapper` is the worker thread object: `run`, `send`, `stop`.

Every operation is a pure function from the state before the call to the
state after it together with the `Effects` of the call: the Qt signals
emitted, the calls made on the websocket++ session, the lines logged and the
C++ exception thrown, if any.

The websocket++ library and Qt are external to the repository.  The library
is a script (`Attempt`) that says which callbacks it delivers and which
exception it raises; the two Qt conversions `QString::toUtf8` and
`QString::fromUtf8` are modelled after the Qt 5 documentation and sources.

`run` wraps the handler in an owning `boost::shared_ptr` for the client, so
the handler is deleted with the client when the `try` block is left.  The
`catch` clause for `std::exception` reads the handler's url after that, which
the model records as `Outcome.undefined`.
-/

namespace QmlWebSocket

/-! ## Data model -/

/-- A `QString` holding well-formed text: the sequence of its Unicode scalar
values.  (A `QString` is a sequence of UTF-16 code units; the well-formed ones
are in bijection with the lists of scalar values.) -/
abbrev QString := List Char

/-- A `std::string` or `std::vector<unsigned char>`: a sequence of bytes, each
byte a natural number (below 256 for the strings the program builds). -/
abbrev Bytes := List Nat

/-- `websocketpp::session_ptr`: a shared pointer to a session, `none` being the
null pointer, `some i` a pointer to the session of identity `i`. -/
abbrev session_ptr := Option Nat

/-- The signals of `WebSocketWrapper` (the same four as in `WebSocket.h`). -/
inductive Signal where
  | message (message : QString)
  | opened
  | closed
  | failed
  deriving DecidableEq

/-- The terminal events are `closed` and `failed`. -/
def Signal.isTerminal : Signal → Bool
  | .closed => true
  | .failed => true
  | _ => false

/-- Whether the signal is a `message` event. -/
def Signal.isMessage : Signal → Bool
  | .message _ => true
  | _ => false

/-- `websocketpp::close::status::GOING_AWAY` (RFC 6455 status code 1001). -/
def GOING_AWAY : Nat := 1001

/-- A call into the websocket++ library: a member function called on a session
object, or one of the steps of `WebSocketWrapper::run` on the client and the
`io_service`. -/
inductive LibraryCall where
  | send (session : Nat) (msg : Bytes)
  | close (session : Nat) (status : Nat) (reason : Bytes)
  | new_io_service
  | new_client
  | init
  | set_header (name value : String)
  | connect (url : String)
  | io_service_run
  deriving DecidableEq

/-- A value thrown by a C++ `throw`, by the handler of `run` that matches it:
* `std_exception`: an object of a class publicly derived from
  `std::exception`, matched by `catch(std::exception&)`;
* `c_string`: a non-null `const char*` or `char*`, matched by
  `catch (const char*)`;
* `null_pointer`: `nullptr` or a null `char*`, also matched by
  `catch (const char*)`;
* `other`: a value of a type that neither handler matches, for instance an
  `int` or a `std::string`. -/
inductive Thrown where
  | std_exception (what : String)
  | c_string (msg : String)
  | null_pointer
  | other (tag : Nat)
  deriving DecidableEq

/-- A line written through `DEBUG_LOG` (`warn = false`) or `WARN_LOG`
(`warn = true`): the literal text and the streamed arguments. -/
structure LogLine where
  warn : Bool
  text : String
  args : List String
  deriving DecidableEq

/-- How a call ended: it returned, an exception left it, the process was
aborted by a failed `Q_ASSERT`, or the call went on to read an object that had
been deleted, from where on C++ defines no behaviour (the signals, calls and
log lines recorded are those before that point). -/
inductive Outcome where
  | returned
  | threw (e : Thrown)
  | aborted
  | undefined
  deriving DecidableEq

/-- What a call did besides changing the handler: signals emitted, calls made
into the library, lines logged, and how the call ended. -/
structure Effects where
  signals : List Signal
  calls : List LibraryCall
  log : List LogLine
  outcome : Outcome
  deriving DecidableEq

/-- The effects of a call that only logs. -/
def Effects.logOnly (l : LogLine) : Effects := ⟨[], [], [l], Outcome.returned⟩

/-- The effects of a call that does nothing observable. -/
def Effects.nothing : Effects := ⟨[], [], [], Outcome.returned⟩

/-- Effects of one call followed by those of the next; the outcome is that of
the second. -/
def Effects.append (a b : Effects) : Effects :=
  ⟨a.signals ++ b.signals, a.calls ++ b.calls, a.log ++ b.log, b.outcome⟩

/-- The preprocessor configuration of a build: whether `_DEBUG` is defined,
and whether `QT_NO_DEBUG` is (which compiles `Q_ASSERT` out). -/
structure Build where
  debug : Bool
  qtNoDebug : Bool
  deriving DecidableEq

/-- The data members of `WebSocketWrapperPrivate` (the `_wrapper` back pointer
is only used to emit signals, which `Effects.signals` records). -/
structure WebSocketWrapperPrivate where
  url : QString
  _session : session_ptr
  deriving DecidableEq

/-! ## Text conversions -/

/-- The UTF-8 encoding of one scalar value. -/
def utf8EncodeChar (c : Char) : Bytes :=
  let v := c.toNat
  if v < 0x80 then [v]
  else if v < 0x800 then [0xC0 + v / 64, 0x80 + v % 64]
  else if v < 0x10000 then [0xE0 + v / 4096, 0x80 + v / 64 % 64, 0x80 + v % 64]
  else [0xF0 + v / 262144, 0x80 + v / 4096 % 64, 0x80 + v / 64 % 64, 0x80 + v % 64]

/-- `QString::toUtf8`: the UTF-8 encoding of the text (no byte-order mark is
written). -/
def toUtf8 : QString → Bytes
  | [] => []
  | c :: cs => utf8EncodeChar c ++ toUtf8 cs

/-- Whether the byte is a UTF-8 continuation byte `10xxxxxx`. -/
def isCont (b : Nat) : Bool := decide (0x80 ≤ b) && decide (b < 0xC0)

/-- U+FFFD, written by the decoder for a byte it cannot decode. -/
def replacementCharacter : Char := Char.ofNat 0xFFFD

/-- The decoding loop of `QString::fromUtf8`: shortest-form sequences of one
to four bytes decode to their scalar value; a byte that starts no such
sequence gives U+FFFD and decoding goes on at the next byte (`skip`). -/
def utf8Decode : Bytes → QString
  | [] => []
  | b0 :: rest =>
    let skip := replacementCharacter :: utf8Decode rest
    if b0 < 0x80 then Char.ofNat b0 :: utf8Decode rest
    else
      match rest with
      | [] => skip
      | b1 :: r1 =>
        if 0xC2 ≤ b0 ∧ b0 < 0xE0 ∧ isCont b1 = true then
          Char.ofNat ((b0 - 0xC0) * 64 + (b1 - 0x80)) :: utf8Decode r1
        else
          match r1 with
          | [] => skip
          | b2 :: r2 =>
            let v3 := (b0 - 0xE0) * 4096 + (b1 - 0x80) * 64 + (b2 - 0x80)
            if 0xE0 ≤ b0 ∧ b0 < 0xF0 ∧ isCont b1 = true ∧ isCont b2 = true
                ∧ 0x800 ≤ v3 ∧ (v3 < 0xD800 ∨ 0xDFFF < v3) then
              Char.ofNat v3 :: utf8Decode r2
            else
              match r2 with
              | [] => skip
              | b3 :: r3 =>
                let v4 := (b0 - 0xF0) * 262144 + (b1 - 0x80) * 4096
                            + (b2 - 0x80) * 64 + (b3 - 0x80)
                if 0xF0 ≤ b0 ∧ b0 < 0xF8 ∧ isCont b1 = true ∧ isCont b2 = true
                    ∧ isCont b3 = true ∧ 0x10000 ≤ v4 ∧ v4 < 0x110000 then
                  Char.ofNat v4 :: utf8Decode r3
                else
                  skip

/-- `QString::fromUtf8(const char*, size)`: a leading UTF-8 byte-order mark
`EF BB BF` is skipped, the rest goes through the decoding loop.  The function
has no failure result: every byte sequence gives a `QString`. -/
def fromUtf8 : Bytes → QString
  | b0 :: b1 :: b2 :: rest =>
    if b0 = 0xEF ∧ b1 = 0xBB ∧ b2 = 0xBF then utf8Decode rest
    else utf8Decode (b0 :: b1 :: b2 :: rest)
  | bytes => utf8Decode bytes

/-- The bytes a `const char*` designates when it is read as a C string: those
before the first zero byte.  This is what `strlen` measures, so what
`QString::fromUtf8(p)` (size defaulted to -1) decodes and what
`std::string(p)` copies. -/
def c_str (bytes : Bytes) : Bytes := bytes.takeWhile (fun b => b != 0)

/-- The text before the first U+0000 character. -/
def untilNul (s : QString) : QString := s.takeWhile (fun c => c != Char.ofNat 0)

/-! ## The connection handler `WebSocketWrapperPrivate` -/

namespace WebSocketWrapperPrivate

/-- The constructor: `url` is initialised from the argument, `_session` is
default-constructed, that is, null. -/
def create (theUrl : QString) : WebSocketWrapperPrivate :=
  ⟨theUrl, none⟩

/-- `on_fail(session_ptr con)`: logs and emits `failed`.  The body does not
assign `_session`. -/
def on_fail (h : WebSocketWrapperPrivate) (_con : session_ptr) :
    WebSocketWrapperPrivate × Effects :=
  (h, ⟨[Signal.failed], [], [⟨false, "Connection Failed: ", [String.mk h.url]⟩], Outcome.returned⟩)

/-- `on_open(session_ptr con)`: logs, stores `con` in `_session`, emits
`opened`. -/
def on_open (h : WebSocketWrapperPrivate) (con : session_ptr) :
    WebSocketWrapperPrivate × Effects :=
  (⟨h.url, con⟩,
    ⟨[Signal.opened], [], [⟨false, "Connection Opened: ", [String.mk h.url]⟩], Outcome.returned⟩)

/-- `on_close(session_ptr con)`: logs, resets `_session` to a null pointer,
emits `closed`. -/
def on_close (h : WebSocketWrapperPrivate) (_con : session_ptr) :
    WebSocketWrapperPrivate × Effects :=
  (⟨h.url, none⟩,
    ⟨[Signal.closed], [], [⟨false, "Connection Closed: ", [String.mk h.url]⟩], Outcome.returned⟩)

/-- `on_message(session_ptr con, const std::string &msg)`: decodes
`msg.c_str()` with `QString::fromUtf8`, logs, emits `message`. -/
def on_message (h : WebSocketWrapperPrivate) (_con : session_ptr) (msg : Bytes) :
    WebSocketWrapperPrivate × Effects :=
  let message := fromUtf8 (c_str msg)
  (h, ⟨[Signal.message message], [], [⟨false, "Got Message:", [String.mk message]⟩], Outcome.returned⟩)

/-- `on_message(session_ptr session, const std::vector<unsigned char> &data)`:
throws a `std::exception` when `_DEBUG` is defined and has an empty body
otherwise. -/
def on_message_binary (b : Build) (h : WebSocketWrapperPrivate) (_session : session_ptr)
    (_data : Bytes) : WebSocketWrapperPrivate × Effects :=
  if b.debug then
    (h, ⟨[], [], [],
      Outcome.threw (Thrown.std_exception "The method or operation is not implemented.")⟩)
  else
    (h, Effects.nothing)

/-- `send(const QString& msg)`: without a session, logs and returns; with one,
calls `send` on it with the `std::string` built from the `char*`
`msg.toUtf8().data()`. -/
def send (h : WebSocketWrapperPrivate) (msg : QString) : WebSocketWrapperPrivate × Effects :=
  match h._session with
  | none =>
    (h, Effects.logOnly ⟨false, "Tried to send on a disconnected connection! Aborting.", []⟩)
  | some s => (h, ⟨[], [LibraryCall.send s (c_str (toUtf8 msg))], [], Outcome.returned⟩)

/-- `close()`: without a session, logs and returns; with one, calls
`close(GOING_AWAY, "")` on it. -/
def close (h : WebSocketWrapperPrivate) : WebSocketWrapperPrivate × Effects :=
  match h._session with
  | none => (h, Effects.logOnly ⟨false, "Tried to close a disconnected connection!", []⟩)
  | some s => (h, ⟨[], [LibraryCall.close s GOING_AWAY (c_str [])], [], Outcome.returned⟩)

end WebSocketWrapperPrivate

/-! ## The library as seen from `run` -/

/-- A callback the library makes on the connection handler. -/
inductive Callback where
  | on_fail (con : session_ptr)
  | on_open (con : session_ptr)
  | on_close (con : session_ptr)
  | on_message (con : session_ptr) (msg : Bytes)
  | on_message_binary (session : session_ptr) (data : Bytes)
  deriving DecidableEq

/-- The terminal callbacks are `on_close` and `on_fail`. -/
def Callback.isTerminal : Callback → Bool
  | .on_close _ => true
  | .on_fail _ => true
  | _ => false

/-- Whether the callback is the binary `on_message`. -/
def Callback.isBinary : Callback → Bool
  | .on_message_binary _ _ => true
  | _ => false

/-- Virtual dispatch of a callback to the handler's member function. -/
def WebSocketWrapperPrivate.deliver (b : Build) (h : WebSocketWrapperPrivate) :
    Callback → WebSocketWrapperPrivate × Effects
  | .on_fail con => h.on_fail con
  | .on_open con => h.on_open con
  | .on_close con => h.on_close con
  | .on_message con msg => h.on_message con msg
  | .on_message_binary session data => h.on_message_binary b session data

/-- The callbacks of one event loop, delivered in order.  A callback that
does not return ends the loop: its exception unwinds out of
`io_service.run()`. -/
def deliverAll (b : Build) (h : WebSocketWrapperPrivate) :
    List Callback → WebSocketWrapperPrivate × Effects
  | [] => (h, Effects.nothing)
  | c :: cs =>
    let r := h.deliver b c
    match r.2.outcome with
    | Outcome.returned =>
      let r2 := deliverAll b r.1 cs
      (r2.1, r.2.append r2.2)
    | _ => r

/-- The statements of the `try` block of `WebSocketWrapper::run`. -/
inductive RunStep where
  | io_service
  | new_client
  | init
  | set_header
  | connect
  | io_service_run
  deriving DecidableEq

/-- What the library does during one run of the worker: the callbacks it
delivers from inside `io_service.run()`, and the exception it raises, if any,
with the statement that raises it (for `io_service`: the constructor of the
local `io_service`; for `new_client`: the constructor of the client, after
the handler has been wrapped in the `shared_ptr` argument; for
`io_service_run`: after the callbacks have been delivered). -/
structure Attempt where
  delivered : List Callback
  raised : Option (RunStep × Thrown)
  deriving DecidableEq

/-- The exception the library raises from the given statement, if any. -/
def Attempt.raisedAt (a : Attempt) (s : RunStep) : Option Thrown :=
  match a.raised with
  | some (s1, t) => if s1 = s then some t else none
  | none => none

/-- Whether the `try` block got as far as
`boost::shared_ptr<WebSocketWrapperPrivate>(this->_handler.data())`: it did
unless the constructor of the `io_service` threw.  That `shared_ptr` owns the
handler; it and its copies live in the temporary and in the client, which are
destroyed when the block is left, by its end or by an exception.  So once the
handler has been handed over, it is deleted when the block is left. -/
def Attempt.handedOver (a : Attempt) : Bool :=
  (a.raisedAt RunStep.io_service).isNone

/-! ## The worker `WebSocketWrapper` -/

/-- The data member of `WebSocketWrapper` this file uses: the
`QScopedPointer` to the handler, `none` when `isNull()`, `some h` when it
points to the live handler `h`.  A pointer to a handler that has been deleted
has no value here: `run` says when no such wrapper state is left. -/
structure WebSocketWrapper where
  _handler : Option WebSocketWrapperPrivate
  deriving DecidableEq

namespace WebSocketWrapper

/-- The constructor: `_handler(new WebSocketWrapperPrivate(url, this))`. -/
def create (url : QString) : WebSocketWrapper :=
  ⟨some (WebSocketWrapperPrivate.create url)⟩

/-- One library statement of the `try` block: the call is recorded, and the
block goes on with `next` unless the library raises from this statement. -/
def step (a : Attempt) (s : RunStep) (call : LibraryCall)
    (h : WebSocketWrapperPrivate) (next : WebSocketWrapperPrivate × Effects) :
    WebSocketWrapperPrivate × Effects :=
  match a.raisedAt s with
  | some t => (h, ⟨[], [call], [], Outcome.threw t⟩)
  | none => (next.1, Effects.append ⟨[], [call], [], Outcome.returned⟩ next.2)

/-- The statement `io_service.run()`: the callbacks are delivered; if they all
return, the library may still raise from the loop. -/
def ioServiceRun (b : Build) (a : Attempt) (h : WebSocketWrapperPrivate) :
    WebSocketWrapperPrivate × Effects :=
  let r := deliverAll b h a.delivered
  let call : Effects := ⟨[], [LibraryCall.io_service_run], [], Outcome.returned⟩
  match r.2.outcome with
  | Outcome.returned =>
    match a.raisedAt RunStep.io_service_run with
    | some t => (r.1, call.append ⟨r.2.signals, r.2.calls, r.2.log, Outcome.threw t⟩)
    | none => (r.1, call.append r.2)
  | _ => (r.1, call.append r.2)

/-- The `try` block of `run`: construct the `io_service`, build the client
around the handler, `init`, `set_header`, `connect`, then run the event
loop. -/
def tryBlock (b : Build) (a : Attempt) (h : WebSocketWrapperPrivate) :
    WebSocketWrapperPrivate × Effects :=
  step a RunStep.io_service LibraryCall.new_io_service h <|
  step a RunStep.new_client LibraryCall.new_client h <|
  step a RunStep.init LibraryCall.init h <|
  step a RunStep.set_header (LibraryCall.set_header "User Agent" "Qt WebSocket++") h <|
  step a RunStep.connect (LibraryCall.connect (String.mk h.url)) h <|
  ioServiceRun b a h

/-- The two `catch` clauses of `run`: `std::exception&` and `const char*`.
Each emits `failed` and then logs a warning; the first reads
`this->_handler->url` for it, which is undefined when the handler has been
deleted (`alive = none`).  A thrown value that matches neither clause leaves
`run`. -/
def catchClauses (alive : Option WebSocketWrapperPrivate) : Outcome → Effects
  | Outcome.threw (Thrown.std_exception what) =>
    match alive with
    | some h =>
      ⟨[Signal.failed], [],
        [⟨true, "Caught exception trying to get connection to endpoint: ",
          [String.mk h.url, what]⟩],
        Outcome.returned⟩
    | none => ⟨[Signal.failed], [], [], Outcome.undefined⟩
  | Outcome.threw (Thrown.c_string msg) =>
    ⟨[Signal.failed], [], [⟨true, "Const const char& exception:", [msg]⟩], Outcome.returned⟩
  | Outcome.threw Thrown.null_pointer =>
    ⟨[Signal.failed], [], [⟨true, "Const const char& exception:", []⟩], Outcome.returned⟩
  | o => ⟨[], [], [], o⟩

/-- `WebSocketWrapper::run()`.  It dereferences `_handler` without a check, so
it has no defined result when the pointer is null (`none`).  Otherwise the
result is the state of the wrapper after the run and the effects of the run.
The state is `none` when the handler was handed over to the client: it has
been deleted with the client and `_handler` still points to it. -/
def run (b : Build) (a : Attempt) (w : WebSocketWrapper) :
    Option (Option WebSocketWrapper × Effects) :=
  match w._handler with
  | none => none
  | some h =>
    let r := tryBlock b a h
    let alive : Option WebSocketWrapperPrivate := if a.handedOver then none else some r.1
    some (alive.map (fun h1 => ⟨some h1⟩), r.2.append (catchClauses alive r.2.outcome))

/-- `Q_ASSERT(!this->_handler.isNull())` failing: the process aborts, unless
`QT_NO_DEBUG` compiles the assertion out and the following `if` returns. -/
def nullHandler (b : Build) : Effects :=
  if b.qtNoDebug then Effects.nothing
  else ⟨[], [], [⟨true, "ASSERT: !this->_handler.isNull()", []⟩], Outcome.aborted⟩

/-- `WebSocketWrapper::send(const QString& msg)`: forwards to the handler. -/
def send (b : Build) (w : WebSocketWrapper) (msg : QString) : WebSocketWrapper × Effects :=
  match w._handler with
  | none => (w, nullHandler b)
  | some h => let r := h.send msg; (⟨some r.1⟩, r.2)

/-- `WebSocketWrapper::stop()`: forwards to the handler's `close`. -/
def stop (b : Build) (w : WebSocketWrapper) : WebSocketWrapper × Effects :=
  match w._handler with
  | none => (w, nullHandler b)
  | some h => let r := h.close; (⟨some r.1⟩, r.2)

end WebSocketWrapper

/-! ## Properties of event sequences -/

/-- The thrown values the `catch` clauses of `run` match. -/
def Thrown.isCaught : Thrown → Bool
  | .std_exception _ => true
  | .c_string _ => true
  | .null_pointer => true
  | .other _ => false

/-- The thrown values the clause `catch (const char*)` matches. -/
def Thrown.isCString : Thrown → Bool
  | .c_string _ => true
  | .null_pointer => true
  | _ => false

/-- No callback of the list throws: the build has no `_DEBUG`, or the list has
no binary `on_message`. -/
def callbacksReturn (b : Build) (cs : List Callback) : Prop :=
  b.debug = false ∨ ∀ c ∈ cs, c.isBinary = false

/-- The number of terminal events in a sequence of signals. -/
def terminalCount (evs : List Signal) : Nat := evs.countP Signal.isTerminal

/-- The sequence contains exactly one terminal event and no event of any kind
after it: one terminal event in all, and the last event is terminal. -/
def OneTerminalLast (evs : List Signal) : Prop :=
  terminalCount evs = 1 ∧ evs.getLast?.map Signal.isTerminal = some true

instance (evs : List Signal) : Decidable (OneTerminalLast evs) :=
  inferInstanceAs (Decidable (_ ∧ _))

open WebSocketWrapperPrivate

/-! ## Lemmas on the text conversions -/

theorem char_toNat_valid (c : Char) :
    c.toNat < 0xD800 ∨ (0xDFFF < c.toNat ∧ c.toNat < 0x110000) := by
  have h := c.valid
  simpa [Char.toNat, UInt32.isValidChar, Nat.isValidChar] using h

theorem utf8Decode_encodeChar (c : Char) (rest : Bytes) :
    utf8Decode (utf8EncodeChar c ++ rest) = c :: utf8Decode rest := by
  have hv := char_toNat_valid c
  have hc : Char.ofNat c.toNat = c := Char.ofNat_toNat c
  unfold utf8EncodeChar
  simp only []
  generalize c.toNat = v at hv hc
  by_cases h1 : v < 0x80
  · rw [if_pos h1, List.singleton_append, utf8Decode.eq_def]
    simp only [h1, if_true, hc]
  · by_cases h2 : v < 0x800
    · have e : (0xC0 + v / 64 - 0xC0) * 64 + (0x80 + v % 64 - 0x80) = v := by omega
      have a1 : ¬ (0xC0 + v / 64 < 0x80) := by omega
      have a2 : 0xC2 ≤ 0xC0 + v / 64 := by omega
      have a3 : 0xC0 + v / 64 < 0xE0 := by omega
      have a4 : 0x80 ≤ 0x80 + v % 64 := by omega
      have a5 : 0x80 + v % 64 < 0xC0 := by omega
      rw [if_neg h1, if_pos h2, utf8Decode.eq_def]
      simp only [List.cons_append, List.nil_append,
        isCont, a1, a2, a3, a4, a5, e, hc, decide_True, Bool.and_self, and_self, if_true, if_false]
    · by_cases h3 : v < 0x10000
      · have e : (0xE0 + v / 4096 - 0xE0) * 4096 + (0x80 + v / 64 % 64 - 0x80) * 64
            + (0x80 + v % 64 - 0x80) = v := by omega
        have a1 : ¬ (0xE0 + v / 4096 < 0x80) := by omega
        have a2 : ¬ (0xE0 + v / 4096 < 0xE0) := by omega
        have a3 : 0xE0 ≤ 0xE0 + v / 4096 := by omega
        have a4 : 0xE0 + v / 4096 < 0xF0 := by omega
        have a5 : 0x80 ≤ 0x80 + v / 64 % 64 := by omega
        have a6 : 0x80 + v / 64 % 64 < 0xC0 := by omega
        have a7 : 0x80 ≤ 0x80 + v % 64 := by omega
        have a8 : 0x80 + v % 64 < 0xC0 := by omega
        have a9 : 0x800 ≤ v := by omega
        have a10 : v < 0xD800 ∨ 0xDFFF < v := by omega
        rw [if_neg h1, if_neg h2, if_pos h3, utf8Decode.eq_def]
        simp only [List.cons_append, List.nil_append,
          isCont, a1, a2, a3, a4, a5, a6, a7, a8, a9, a10, e, hc, decide_True, Bool.and_self,
          and_self, and_true, true_and, and_false, false_and, if_true, if_false]
      · have e : (0xF0 + v / 262144 - 0xF0) * 262144 + (0x80 + v / 4096 % 64 - 0x80) * 4096
            + (0x80 + v / 64 % 64 - 0x80) * 64 + (0x80 + v % 64 - 0x80) = v := by omega
        have a1 : ¬ (0xF0 + v / 262144 < 0x80) := by omega
        have a2 : ¬ (0xF0 + v / 262144 < 0xE0) := by omega
        have a3 : ¬ (0xF0 + v / 262144 < 0xF0) := by omega
        have a4 : 0xF0 ≤ 0xF0 + v / 262144 := by omega
        have a5 : 0xF0 + v / 262144 < 0xF8 := by omega
        have a6 : 0x80 ≤ 0x80 + v / 4096 % 64 := by omega
        have a7 : 0x80 + v / 4096 % 64 < 0xC0 := by omega
        have a8 : 0x80 ≤ 0x80 + v / 64 % 64 := by omega
        have a9 : 0x80 + v / 64 % 64 < 0xC0 := by omega
        have a10 : 0x80 ≤ 0x80 + v % 64 := by omega
        have a11 : 0x80 + v % 64 < 0xC0 := by omega
        have a12 : 0x10000 ≤ v := by omega
        have a13 : v < 0x110000 := by omega
        rw [if_neg h1, if_neg h2, if_neg h3, utf8Decode.eq_def]
        simp only [List.cons_append, List.nil_append,
          isCont, a1, a2, a3, a4, a5, a6, a7, a8, a9, a10, a11, a12, a13, e, hc, decide_True,
          Bool.and_self, and_self, and_true, true_and, and_false, false_and, if_true, if_false]

theorem utf8Decode_toUtf8 (t : QString) : utf8Decode (toUtf8 t) = t := by
  induction t with
  | nil => rfl
  | cons c cs ih => rw [toUtf8, utf8Decode_encodeChar, ih]

theorem fromUtf8_of_no_bom (bytes : Bytes)
    (h : ∀ rest, bytes ≠ 0xEF :: 0xBB :: 0xBF :: rest) : fromUtf8 bytes = utf8Decode bytes := by
  rw [fromUtf8.eq_def]
  split
  · rename_i b0 b1 b2 rest
    split
    · rename_i hc
      obtain ⟨rfl, rfl, rfl⟩ := hc
      exact absurd rfl (h rest)
    · rfl
  · rfl

theorem encodeChar_no_bom (c : Char) (hne : c ≠ Char.ofNat 0xFEFF) (tail rest : Bytes) :
    utf8EncodeChar c ++ tail ≠ 0xEF :: 0xBB :: 0xBF :: rest := by
  have hc : Char.ofNat c.toNat = c := Char.ofNat_toNat c
  have hv : c.toNat ≠ 0xFEFF := fun h => hne (by rw [← hc, h])
  unfold utf8EncodeChar
  simp only []
  generalize c.toNat = v at hv hc
  intro heq
  by_cases h1 : v < 0x80
  · rw [if_pos h1] at heq
    simp only [List.cons_append, List.nil_append, List.cons.injEq] at heq
    omega
  · by_cases h2 : v < 0x800
    · rw [if_neg h1, if_pos h2] at heq
      simp only [List.cons_append, List.nil_append, List.cons.injEq] at heq
      omega
    · by_cases h3 : v < 0x10000
      · rw [if_neg h1, if_neg h2, if_pos h3] at heq
        simp only [List.cons_append, List.nil_append, List.cons.injEq] at heq
        omega
      · rw [if_neg h1, if_neg h2, if_neg h3] at heq
        simp only [List.cons_append, List.nil_append, List.cons.injEq] at heq
        omega

/-- Decoding the encoding of a text that does not begin with U+FEFF gives the
text back. -/
theorem fromUtf8_toUtf8 (t : QString) (h : t.head? ≠ some (Char.ofNat 0xFEFF)) :
    fromUtf8 (toUtf8 t) = t := by
  rw [fromUtf8_of_no_bom, utf8Decode_toUtf8]
  intro rest
  cases t with
  | nil => simp [toUtf8]
  | cons c cs =>
    rw [toUtf8]
    exact encodeChar_no_bom c (fun hc => h (by rw [hc]; rfl)) _ _

theorem c_str_encodeChar (c : Char) (rest : Bytes) :
    c_str (utf8EncodeChar c ++ rest)
      = if c = Char.ofNat 0 then [] else utf8EncodeChar c ++ c_str rest := by
  have hc : Char.ofNat c.toNat = c := Char.ofNat_toNat c
  by_cases h0 : c = Char.ofNat 0
  · subst h0
    rfl
  · rw [if_neg h0]
    have hv : c.toNat ≠ 0 := fun h => h0 (by rw [← hc, h])
    unfold utf8EncodeChar c_str
    simp only []
    generalize c.toNat = v at hv
    by_cases h1 : v < 0x80
    · rw [if_pos h1]
      simp [List.takeWhile_cons, hv]
    · by_cases h2 : v < 0x800
      · rw [if_neg h1, if_pos h2]
        simp [List.takeWhile_cons]
      · by_cases h3 : v < 0x10000
        · rw [if_neg h1, if_neg h2, if_pos h3]
          simp [List.takeWhile_cons]
        · rw [if_neg h1, if_neg h2, if_neg h3]
          simp [List.takeWhile_cons]

/-- Reading the encoding of a text as a C string gives the encoding of the
text before its first U+0000. -/
theorem c_str_toUtf8 (t : QString) : c_str (toUtf8 t) = toUtf8 (untilNul t) := by
  induction t with
  | nil => rfl
  | cons c cs ih =>
    rw [toUtf8, c_str_encodeChar]
    by_cases h0 : c = Char.ofNat 0
    · simp [h0, untilNul, toUtf8]
    · rw [if_neg h0, ih]
      have : untilNul (c :: cs) = c :: untilNul cs := by
        simp [untilNul, List.takeWhile_cons, h0]
      rw [this, toUtf8]

theorem untilNul_of_not_mem (t : QString) (h : Char.ofNat 0 ∉ t) : untilNul t = t := by
  unfold untilNul
  rw [List.takeWhile_eq_self_iff]
  intro c hc
  simp only [bne_iff_ne, ne_eq]
  rintro rfl
  exact h hc

/-- No text has the single byte `FF` as its UTF-8 encoding. -/
theorem not_utf8_FF : ¬ ∃ t : QString, toUtf8 t = [0xFF] := by
  rintro ⟨t, ht⟩
  cases t with
  | nil => simp [toUtf8] at ht
  | cons c cs =>
    have hv := char_toNat_valid c
    rw [toUtf8] at ht
    unfold utf8EncodeChar at ht
    simp only [] at ht
    generalize c.toNat = v at hv ht
    by_cases h1 : v < 0x80
    · rw [if_pos h1] at ht
      simp only [List.cons_append, List.nil_append, List.cons.injEq] at ht
      omega
    · by_cases h2 : v < 0x800
      · rw [if_neg h1, if_pos h2] at ht
        simp at ht
      · by_cases h3 : v < 0x10000
        · rw [if_neg h1, if_neg h2, if_pos h3] at ht
          simp at ht
        · rw [if_neg h1, if_neg h2, if_neg h3] at ht
          simp at ht

/-! ## The handler callbacks -/

/-- C1, evaluated on the code: `on_fail` emits exactly one event, `failed`, and
returns, but it leaves the handler as it was.  So after `on_open` has stored
the session `s`, an `on_fail` leaves the handle equal to `s`, not absent,
while the sibling `on_close` in the same state clears it. -/
theorem on_fail_keeps_session (h : WebSocketWrapperPrivate) (con : session_ptr) (s : Nat) :
    (h.on_fail con).1 = h
    ∧ (h.on_fail con).2.signals = [Signal.failed]
    ∧ (h.on_fail con).2.outcome = Outcome.returned
    ∧ ((h.on_open (some s)).1.on_fail con).1._session = some s
    ∧ ((h.on_open (some s)).1.on_close con).1._session = none :=
  ⟨rfl, rfl, rfl, rfl, rfl⟩

/-- C2: in every handler state and for every session `s`, `on_open s` leaves
the stored handle equal to `s`, whatever was stored before, keeps the url,
emits exactly one event, `opened`, makes no library call and returns; a
freshly constructed handler, also the one a new worker holds, has no handle. -/
theorem on_open_stores_session (h : WebSocketWrapperPrivate) (s : session_ptr) :
    (h.on_open s).1._session = s
    ∧ (h.on_open s).1.url = h.url
    ∧ (h.on_open s).2.signals = [Signal.opened]
    ∧ (h.on_open s).2.calls = []
    ∧ (h.on_open s).2.outcome = Outcome.returned
    ∧ (∀ url, (create url)._session = none)
    ∧ (∀ url, (WebSocketWrapper.create url)._handler = some ⟨url, none⟩) :=
  ⟨rfl, rfl, rfl, rfl, rfl, fun _ => rfl, fun _ => rfl⟩

/-- C3: in every handler state and for every session argument, `on_close`
leaves the stored handle absent, keeps the url, emits exactly one event,
`closed`, and returns; so for a fresh handler the handle is absent before
`on_open s`, equal to `s` after it, and absent again after `on_close`. -/
theorem on_close_clears_session (h : WebSocketWrapperPrivate) (con : session_ptr) :
    (h.on_close con).1._session = none
    ∧ (h.on_close con).1.url = h.url
    ∧ (h.on_close con).2.signals = [Signal.closed]
    ∧ (h.on_close con).2.calls = []
    ∧ (h.on_close con).2.outcome = Outcome.returned
    ∧ (∀ url s, (create url)._session = none
        ∧ ((create url).on_open s).1._session = s
        ∧ (((create url).on_open s).1.on_close con).1._session = none) :=
  ⟨rfl, rfl, rfl, rfl, rfl, fun _ _ => ⟨rfl, rfl, rfl⟩⟩

/-! ## Inbound messages -/

/-- C9 fails on the code: the one-byte payload `FF` is the UTF-8 encoding of no
text, yet the text `on_message` emits a `message` event for it (carrying
U+FFFD), with a session stored. -/
theorem on_message_malformed_emits :
    (¬ ∃ t : QString, toUtf8 t = [0xFF])
    ∧ (on_message ⟨[], some 1⟩ (some 1) [0xFF]).2.signals
        = [Signal.message [replacementCharacter]] :=
  ⟨not_utf8_FF, by decide⟩

/-- C9 as amended: for every text-frame payload, well-formed UTF-8 or not, the
text `on_message` emits exactly one `message` event, carrying what
`QString::fromUtf8` makes of the bytes before the first zero byte; it makes no
library call, returns normally and leaves the handler, so the stored session
handle, unchanged. -/
theorem on_message_always_emits (h : WebSocketWrapperPrivate) (con : session_ptr)
    (msg : Bytes) :
    (h.on_message con msg).2.signals = [Signal.message (fromUtf8 (c_str msg))]
    ∧ (h.on_message con msg).2.calls = []
    ∧ (h.on_message con msg).2.outcome = Outcome.returned
    ∧ (h.on_message con msg).1 = h :=
  ⟨rfl, rfl, rfl, rfl⟩

/-- C10 fails on the code: in a build with `_DEBUG` defined the binary
`on_message` throws a `std::exception`. -/
theorem on_message_binary_debug_throws :
    (on_message_binary ⟨true, false⟩ ⟨[], some 1⟩ (some 1) [0x00, 0x01]).2.outcome
      = Outcome.threw (Thrown.std_exception "The method or operation is not implemented.") := by
  decide

/-- C10 as amended: for every binary payload and every handler state the
binary `on_message` emits no event at all, makes no library call and leaves
the handler unchanged; in a build without `_DEBUG` it returns normally, in a
build with `_DEBUG` it throws a `std::exception`. -/
theorem on_message_binary_contract (b : Build) (h : WebSocketWrapperPrivate)
    (session : session_ptr) (data : Bytes) :
    (h.on_message_binary b session data).2.signals = []
    ∧ (h.on_message_binary b session data).2.calls = []
    ∧ (h.on_message_binary b session data).1 = h
    ∧ (b.debug = false → (h.on_message_binary b session data).2.outcome = Outcome.returned)
    ∧ (b.debug = true → (h.on_message_binary b session data).2.outcome
        = Outcome.threw (Thrown.std_exception "The method or operation is not implemented.")) := by
  unfold on_message_binary
  cases hb : b.debug <;> simp [Effects.nothing]

/-- Witness of `on_message_binary_contract`: a release build, a stored session
and a two-byte frame. -/
theorem on_message_binary_contract_witness :
    (on_message_binary ⟨false, true⟩ ⟨[], some 1⟩ (some 1) [0x00, 0x01]).2.signals = []
    ∧ (on_message_binary ⟨false, true⟩ ⟨[], some 1⟩ (some 1) [0x00, 0x01]).1 = ⟨[], some 1⟩
    ∧ (on_message_binary ⟨false, true⟩ ⟨[], some 1⟩ (some 1) [0x00, 0x01]).2.outcome
        = Outcome.returned :=
  have w := on_message_binary_contract ⟨false, true⟩ ⟨[], some 1⟩ (some 1) [0x00, 0x01]
  ⟨w.1, w.2.2.1, w.2.2.2.1 rfl⟩

/-! ## The commands `send` and `stop` -/

/-- C7: (i) without a stored session handle, the handler's `close` and the
worker's `stop` make no library call, emit no event, return normally and leave
the state unchanged, as they do on a worker that never connected; (ii) with a
handle `s` stored they make exactly one call, `close` on `s` with the status
`GOING_AWAY` (1001) and an empty reason, emit no event and leave the handle
stored. -/
theorem stop_close_contract (b : Build) (h : WebSocketWrapperPrivate) :
    (h._session = none →
      h.close.1 = h ∧ h.close.2.calls = [] ∧ h.close.2.signals = []
      ∧ h.close.2.outcome = Outcome.returned
      ∧ (WebSocketWrapper.stop b ⟨some h⟩).1 = ⟨some h⟩
      ∧ (WebSocketWrapper.stop b ⟨some h⟩).2.calls = []
      ∧ (WebSocketWrapper.stop b ⟨some h⟩).2.signals = []
      ∧ (WebSocketWrapper.stop b ⟨some h⟩).2.outcome = Outcome.returned)
    ∧ (∀ s, h._session = some s →
      h.close.1 = h ∧ h.close.2.calls = [LibraryCall.close s 1001 []] ∧ h.close.2.signals = []
      ∧ h.close.2.outcome = Outcome.returned
      ∧ (WebSocketWrapper.stop b ⟨some h⟩).1 = ⟨some h⟩
      ∧ (WebSocketWrapper.stop b ⟨some h⟩).2.calls = [LibraryCall.close s 1001 []]
      ∧ (WebSocketWrapper.stop b ⟨some h⟩).2.signals = []
      ∧ (WebSocketWrapper.stop b ⟨some h⟩).2.outcome = Outcome.returned)
    ∧ (∀ url, (WebSocketWrapper.stop b (WebSocketWrapper.create url)).1
          = WebSocketWrapper.create url
      ∧ (WebSocketWrapper.stop b (WebSocketWrapper.create url)).2.calls = []
      ∧ (WebSocketWrapper.stop b (WebSocketWrapper.create url)).2.signals = []
      ∧ (WebSocketWrapper.stop b (WebSocketWrapper.create url)).2.outcome
          = Outcome.returned) := by
  refine ⟨fun hn => ?_, fun s hs => ?_, fun url => ?_⟩
  · simp [WebSocketWrapper.stop, close, hn, Effects.logOnly]
  · simp [WebSocketWrapper.stop, close, hs, GOING_AWAY, c_str]
  · simp [WebSocketWrapper.stop, WebSocketWrapper.create, create, close, Effects.logOnly]

/-- Witness of `stop_close_contract`: a handler that holds session 7, and one
that holds none. -/
theorem stop_close_contract_witness :
    (WebSocketWrapper.stop ⟨false, false⟩ ⟨some ⟨[], some 7⟩⟩).2.calls
        = [LibraryCall.close 7 1001 []]
    ∧ (WebSocketWrapper.stop ⟨false, false⟩ ⟨some ⟨[], some 7⟩⟩).1 = ⟨some ⟨[], some 7⟩⟩
    ∧ (WebSocketWrapper.stop ⟨false, false⟩ ⟨some ⟨[], none⟩⟩).2.calls = [] :=
  have w := (stop_close_contract ⟨false, false⟩ ⟨[], some 7⟩).2.1 7 rfl
  have v := (stop_close_contract ⟨false, false⟩ ⟨[], none⟩).1 rfl
  ⟨w.2.2.2.2.2.1, w.2.2.2.2.1, v.2.2.2.2.2.1⟩

/-! ## Lemmas on the event loop and the `try` block -/

theorem deliver_outcome (b : Build) (h : WebSocketWrapperPrivate) (c : Callback) :
    (h.deliver b c).2.outcome = Outcome.returned
    ∨ ∃ w, (h.deliver b c).2.outcome = Outcome.threw (Thrown.std_exception w) := by
  cases c <;> simp [deliver, on_fail, on_open, on_close, on_message, on_message_binary]
  split <;> simp [Effects.nothing]

theorem deliver_nonterminal (b : Build) (h : WebSocketWrapperPrivate) (c : Callback)
    (hc : c.isTerminal = false) : terminalCount (h.deliver b c).2.signals = 0 := by
  cases c <;> simp [Callback.isTerminal] at hc <;>
    simp [deliver, on_open, on_message, on_message_binary, terminalCount, Signal.isTerminal]
  split <;> simp [Effects.nothing]

theorem deliver_terminal (b : Build) (h : WebSocketWrapperPrivate) (c : Callback)
    (hc : c.isTerminal = true) :
    (h.deliver b c).2.outcome = Outcome.returned
    ∧ ∃ e, (h.deliver b c).2.signals = [e] ∧ e.isTerminal = true := by
  cases c <;> simp [Callback.isTerminal] at hc <;>
    simp [deliver, on_fail, on_close, Signal.isTerminal]

theorem deliverAll_outcome (b : Build) (cs : List Callback) (h : WebSocketWrapperPrivate) :
    (deliverAll b h cs).2.outcome = Outcome.returned
    ∨ ∃ w, (deliverAll b h cs).2.outcome = Outcome.threw (Thrown.std_exception w) := by
  induction cs generalizing h with
  | nil => left; rfl
  | cons c cs ih =>
    rw [deliverAll]
    rcases deliver_outcome b h c with h1 | ⟨w, h1⟩
    · simp only [h1, Effects.append]
      exact ih _
    · simp only [h1]
      exact Or.inr ⟨w, rfl⟩

theorem deliverAll_nonterminal (b : Build) (cs : List Callback) (h : WebSocketWrapperPrivate)
    (hcs : ∀ c ∈ cs, c.isTerminal = false) :
    terminalCount (deliverAll b h cs).2.signals = 0 := by
  induction cs generalizing h with
  | nil => rfl
  | cons c cs ih =>
    have hc := deliver_nonterminal b h c (hcs c (List.mem_cons_self _ _))
    have ht := fun h1 => ih h1 (fun x hx => hcs x (List.mem_cons_of_mem _ hx))
    rw [deliverAll]
    rcases deliver_outcome b h c with h1 | ⟨w, h1⟩
    · simp only [h1, Effects.append]
      simp only [terminalCount, List.countP_append] at hc ht ⊢
      rw [hc, ht]
    · simp only [h1]
      exact hc

theorem oneTerminalLast_snoc (pre : List Signal) (e : Signal)
    (hpre : terminalCount pre = 0) (he : e.isTerminal = true) : OneTerminalLast (pre ++ [e]) := by
  unfold OneTerminalLast
  unfold terminalCount at hpre ⊢
  simp [List.countP_append, hpre, he]

/-- The event loop on callbacks of which only the last is terminal: either
all return and the signals end with the one terminal event, or a callback
throws a `std::exception` before any terminal event. -/
theorem deliverAll_snoc (b : Build) (pre : List Callback) (t : Callback)
    (h : WebSocketWrapperPrivate) (hpre : ∀ c ∈ pre, c.isTerminal = false)
    (ht : t.isTerminal = true) :
    ((deliverAll b h (pre ++ [t])).2.outcome = Outcome.returned
      ∧ OneTerminalLast (deliverAll b h (pre ++ [t])).2.signals)
    ∨ ((∃ w, (deliverAll b h (pre ++ [t])).2.outcome = Outcome.threw (Thrown.std_exception w))
      ∧ terminalCount (deliverAll b h (pre ++ [t])).2.signals = 0) := by
  induction pre generalizing h with
  | nil =>
    left
    obtain ⟨ho, e, hs, he⟩ := deliver_terminal b h t ht
    simp only [List.nil_append, deliverAll, ho, Effects.append, Effects.nothing, hs,
      List.append_nil]
    exact ⟨trivial, oneTerminalLast_snoc [] e rfl he⟩
  | cons c cs ih =>
    have hc := deliver_nonterminal b h c (hpre c (List.mem_cons_self _ _))
    have ih2 := fun h1 => ih h1 (fun x hx => hpre x (List.mem_cons_of_mem _ hx))
    rw [List.cons_append, deliverAll]
    rcases deliver_outcome b h c with h1 | ⟨w, h1⟩
    · simp only [h1, Effects.append]
      rcases ih2 (h.deliver b c).1 with ⟨ho, hl⟩ | ⟨ho, hl⟩
      · left
        refine ⟨ho, ?_⟩
        unfold OneTerminalLast terminalCount at hl ⊢
        unfold terminalCount at hc
        obtain ⟨hl1, hl2⟩ := hl
        refine ⟨by rw [List.countP_append, hc, hl1], ?_⟩
        have hne : (deliverAll b (h.deliver b c).1 (cs ++ [t])).2.signals ≠ [] := by
          intro hnil
          rw [hnil] at hl1
          simp at hl1
        rw [List.getLast?_append_of_ne_nil _ hne]
        exact hl2
      · right
        refine ⟨ho, ?_⟩
        unfold terminalCount at hl hc ⊢
        rw [List.countP_append, hc, hl]
    · right
      simp only [h1]
      exact ⟨⟨w, rfl⟩, hc⟩

theorem ioServiceRun_signals (b : Build) (a : Attempt) (h : WebSocketWrapperPrivate) :
    (WebSocketWrapper.ioServiceRun b a h).2.signals = (deliverAll b h a.delivered).2.signals := by
  unfold WebSocketWrapper.ioServiceRun
  simp only []
  split
  · split <;> simp [Effects.append]
  · simp [Effects.append]

theorem ioServiceRun_outcome (b : Build) (a : Attempt) (h : WebSocketWrapperPrivate) :
    (WebSocketWrapper.ioServiceRun b a h).2.outcome
      = match (deliverAll b h a.delivered).2.outcome with
        | Outcome.returned =>
          match a.raisedAt RunStep.io_service_run with
          | some t => Outcome.threw t
          | none => Outcome.returned
        | o => o := by
  unfold WebSocketWrapper.ioServiceRun
  cases hd : (deliverAll b h a.delivered).2.outcome <;>
    cases hraise : a.raisedAt RunStep.io_service_run <;>
    simp [hd, hraise, Effects.append]

/-- An exception raised by a statement before the event loop: the block emits
nothing and the exception leaves it. -/
theorem tryBlock_startup (b : Build) (a : Attempt) (h : WebSocketWrapperPrivate)
    (s : RunStep) (t : Thrown) (hr : a.raised = some (s, t))
    (hs : s ≠ RunStep.io_service_run) :
    (WebSocketWrapper.tryBlock b a h).2.signals = []
    ∧ (WebSocketWrapper.tryBlock b a h).2.outcome = Outcome.threw t := by
  cases s <;>
    simp [WebSocketWrapper.tryBlock, WebSocketWrapper.step, Attempt.raisedAt, hr,
      Effects.append] at hs ⊢

/-- Without an exception before the event loop, the signals and the outcome of
the block are those of `io_service.run()`. -/
theorem tryBlock_loop (b : Build) (a : Attempt) (h : WebSocketWrapperPrivate)
    (hr : ∀ s t, a.raised = some (s, t) → s = RunStep.io_service_run) :
    (WebSocketWrapper.tryBlock b a h).2.signals
        = (WebSocketWrapper.ioServiceRun b a h).2.signals
    ∧ (WebSocketWrapper.tryBlock b a h).2.outcome
        = (WebSocketWrapper.ioServiceRun b a h).2.outcome := by
  rcases hraised : a.raised with _ | ⟨s, t⟩
  · simp [WebSocketWrapper.tryBlock, WebSocketWrapper.step, Attempt.raisedAt, hraised,
      Effects.append]
  · have hs := hr s t hraised
    subst hs
    simp [WebSocketWrapper.tryBlock, WebSocketWrapper.step, Attempt.raisedAt, hraised,
      Effects.append]

/-- A `catch` clause that matches emits `failed` once, and no exception leaves
it. -/
theorem catchClauses_caught (alive : Option WebSocketWrapperPrivate) (t : Thrown)
    (ht : t.isCaught = true) :
    (WebSocketWrapper.catchClauses alive (Outcome.threw t)).signals = [Signal.failed]
    ∧ ∀ u, (WebSocketWrapper.catchClauses alive (Outcome.threw t)).outcome
        ≠ Outcome.threw u := by
  cases t <;> simp [Thrown.isCaught] at ht <;> cases alive <;>
    simp [WebSocketWrapper.catchClauses]

/-- The clause for C strings returns; the clause for `std::exception` returns
when the handler is alive. -/
theorem catchClauses_returned (alive : Option WebSocketWrapperPrivate) (t : Thrown)
    (ht : t.isCString = true ∨ (t.isCaught = true ∧ alive.isSome = true)) :
    (WebSocketWrapper.catchClauses alive (Outcome.threw t)).outcome = Outcome.returned := by
  cases t <;> cases alive <;>
    simp [Thrown.isCString, Thrown.isCaught] at ht <;>
    simp [WebSocketWrapper.catchClauses]

/-- Callbacks that do not throw all return. -/
theorem deliverAll_returned (b : Build) (cs : List Callback) (h : WebSocketWrapperPrivate)
    (hcs : callbacksReturn b cs) : (deliverAll b h cs).2.outcome = Outcome.returned := by
  induction cs generalizing h with
  | nil => rfl
  | cons c cs ih =>
    have hc : (h.deliver b c).2.outcome = Outcome.returned := by
      rcases hcs with hb | hcs
      · cases c <;>
          simp [deliver, on_fail, on_open, on_close, on_message, on_message_binary, hb,
            Effects.nothing]
      · have := hcs c (List.mem_cons_self _ _)
        cases c <;> simp [Callback.isBinary] at this <;>
          simp [deliver, on_fail, on_open, on_close, on_message]
    have hcs2 : callbacksReturn b cs := by
      rcases hcs with hb | hcs
      · exact Or.inl hb
      · exact Or.inr (fun x hx => hcs x (List.mem_cons_of_mem _ hx))
    rw [deliverAll]
    simp only [hc, Effects.append]
    exact ih _ hcs2

/-- When the library raises an exception that `run` catches, whatever leaves
the `try` block is an exception that `run` catches. -/
theorem tryBlock_raised_caught (b : Build) (a : Attempt) (h : WebSocketWrapperPrivate)
    (s : RunStep) (t : Thrown) (hr : a.raised = some (s, t)) (ht : t.isCaught = true) :
    ∃ u, (WebSocketWrapper.tryBlock b a h).2.outcome = Outcome.threw u ∧ u.isCaught = true := by
  by_cases hs : s = RunStep.io_service_run
  · subst hs
    have hl := tryBlock_loop b a h (fun s1 t1 h1 => by rw [hr] at h1; cases h1; rfl)
    rw [hl.2, ioServiceRun_outcome]
    rcases deliverAll_outcome b a.delivered h with ho | ⟨w, ho⟩
    · exact ⟨t, by simp [ho, Attempt.raisedAt, hr], ht⟩
    · exact ⟨Thrown.std_exception w, by simp [ho], rfl⟩
  · exact ⟨t, (tryBlock_startup b a h s t hr hs).2, ht⟩

/-- When the library raises an exception and no callback throws, that
exception is what leaves the `try` block. -/
theorem tryBlock_raised (b : Build) (a : Attempt) (h : WebSocketWrapperPrivate)
    (s : RunStep) (t : Thrown) (hr : a.raised = some (s, t))
    (hcb : s = RunStep.io_service_run → callbacksReturn b a.delivered) :
    (WebSocketWrapper.tryBlock b a h).2.outcome = Outcome.threw t := by
  by_cases hs : s = RunStep.io_service_run
  · have ho := deliverAll_returned b a.delivered h (hcb hs)
    subst hs
    have hl := tryBlock_loop b a h (fun s1 t1 h1 => by rw [hr] at h1; cases h1; rfl)
    rw [hl.2, ioServiceRun_outcome]
    simp [ho, Attempt.raisedAt, hr]
  · exact (tryBlock_startup b a h s t hr hs).2

/-- The handler is still alive after the `try` block exactly when the
constructor of the `io_service` threw. -/
theorem handedOver_eq (a : Attempt) (s : RunStep) (t : Thrown) (hr : a.raised = some (s, t)) :
    a.handedOver = decide (s ≠ RunStep.io_service) := by
  cases s <;> simp [Attempt.handedOver, Attempt.raisedAt, hr]

/-- The `catch` clauses after an exception that `run` catches: `failed` is
emitted once more than in the `try` block, and no exception leaves `run`. -/
theorem run_caught_signals (b : Build) (a : Attempt) (h : WebSocketWrapperPrivate)
    (s : RunStep) (t : Thrown) (hr : a.raised = some (s, t)) (ht : t.isCaught = true) :
    ∃ r, WebSocketWrapper.run b a ⟨some h⟩ = some r
      ∧ r.2.signals = (WebSocketWrapper.tryBlock b a h).2.signals ++ [Signal.failed]
      ∧ (∀ u, r.2.outcome ≠ Outcome.threw u)
      ∧ (s ≠ RunStep.io_service_run → r.2.signals = [Signal.failed]) := by
  obtain ⟨u, hu, huc⟩ := tryBlock_raised_caught b a h s t hr ht
  refine ⟨_, rfl, ?_, ?_, ?_⟩
  · simp only [Effects.append, hu, (catchClauses_caught _ u huc).1]
  · simp only [Effects.append, hu]
    exact (catchClauses_caught _ u huc).2
  · intro hs
    simp only [Effects.append, hu, (catchClauses_caught _ u huc).1,
      (tryBlock_startup b a h s t hr hs).1, List.nil_append]

/-- The `catch` clauses return when the exception that reaches them is a C
string, or when the handler has not been handed over. -/
theorem run_caught_returned (b : Build) (a : Attempt) (h : WebSocketWrapperPrivate)
    (s : RunStep) (t : Thrown) (hr : a.raised = some (s, t))
    (hcb : s = RunStep.io_service_run → callbacksReturn b a.delivered)
    (ht : t.isCString = true ∨ (t.isCaught = true ∧ s = RunStep.io_service)) :
    ∃ r, WebSocketWrapper.run b a ⟨some h⟩ = some r ∧ r.2.outcome = Outcome.returned := by
  have hu := tryBlock_raised b a h s t hr hcb
  refine ⟨_, rfl, ?_⟩
  simp only [Effects.append, hu]
  apply catchClauses_returned
  rcases ht with ht | ⟨ht, hs⟩
  · exact Or.inl ht
  · right
    refine ⟨ht, ?_⟩
    rw [handedOver_eq a s t hr]
    simp [hs]

/-! ## Text in and out -/

/-- C6 fails on the code: with session 1 stored, sending the text `a`, U+0000,
`b`, whose UTF-8 encoding is `61 00 62`, calls `send` on the session with the
single byte `61`. -/
theorem send_truncates_at_nul :
    (WebSocketWrapper.send ⟨false, false⟩ ⟨some ⟨[], some 1⟩⟩ ['a', Char.ofNat 0, 'b']).2.calls
      = [LibraryCall.send 1 [0x61]]
    ∧ toUtf8 ['a', Char.ofNat 0, 'b'] = [0x61, 0x00, 0x62] := by
  decide

/-- C6 as amended: for every message text `m`, (i) without a stored session
handle the handler's `send` and the worker's `send` make no library call, emit
no event, return normally and leave the state unchanged; (ii) with a handle
`s` stored they make exactly one call, `send` on `s` with the UTF-8 encoding
of `m` up to its first U+0000 character, which is the complete encoding of
`m` when `m` contains no U+0000; they emit no event and leave the handle
stored. -/
theorem send_contract (b : Build) (h : WebSocketWrapperPrivate) (m : QString) :
    (h._session = none →
      (h.send m).1 = h ∧ (h.send m).2.calls = [] ∧ (h.send m).2.signals = []
      ∧ (h.send m).2.outcome = Outcome.returned
      ∧ (WebSocketWrapper.send b ⟨some h⟩ m).1 = ⟨some h⟩
      ∧ (WebSocketWrapper.send b ⟨some h⟩ m).2.calls = []
      ∧ (WebSocketWrapper.send b ⟨some h⟩ m).2.signals = []
      ∧ (WebSocketWrapper.send b ⟨some h⟩ m).2.outcome = Outcome.returned)
    ∧ (∀ s, h._session = some s →
      (h.send m).1 = h ∧ (h.send m).2.calls = [LibraryCall.send s (toUtf8 (untilNul m))]
      ∧ (h.send m).2.signals = []
      ∧ (h.send m).2.outcome = Outcome.returned
      ∧ (WebSocketWrapper.send b ⟨some h⟩ m).1 = ⟨some h⟩
      ∧ (WebSocketWrapper.send b ⟨some h⟩ m).2.calls
          = [LibraryCall.send s (toUtf8 (untilNul m))]
      ∧ (WebSocketWrapper.send b ⟨some h⟩ m).2.signals = []
      ∧ (WebSocketWrapper.send b ⟨some h⟩ m).2.outcome = Outcome.returned
      ∧ (Char.ofNat 0 ∉ m →
          (WebSocketWrapper.send b ⟨some h⟩ m).2.calls = [LibraryCall.send s (toUtf8 m)])) := by
  refine ⟨fun hn => ?_, fun s hs => ?_⟩
  · simp [WebSocketWrapper.send, send, hn, Effects.logOnly]
  · have hcs := c_str_toUtf8 m
    refine ⟨?_, ?_, ?_, ?_, ?_, ?_, ?_, ?_, fun hm => ?_⟩ <;>
      simp [WebSocketWrapper.send, send, hs, hcs]
    rw [untilNul_of_not_mem m hm]

/-- Witness of `send_contract`: the text `héllo` with session 7 stored, and
with no session stored. -/
theorem send_contract_witness :
    (WebSocketWrapper.send ⟨false, false⟩ ⟨some ⟨[], some 7⟩⟩ ['h', 'é', 'l', 'l', 'o']).2.calls
        = [LibraryCall.send 7 (toUtf8 ['h', 'é', 'l', 'l', 'o'])]
    ∧ toUtf8 ['h', 'é', 'l', 'l', 'o'] = [0x68, 0xC3, 0xA9, 0x6C, 0x6C, 0x6F]
    ∧ (WebSocketWrapper.send ⟨false, false⟩ ⟨some ⟨[], none⟩⟩ ['h', 'é', 'l', 'l', 'o']).2.calls
        = [] :=
  have w := (send_contract ⟨false, false⟩ ⟨[], some 7⟩ ['h', 'é', 'l', 'l', 'o']).2 7 rfl
  have v := (send_contract ⟨false, false⟩ ⟨[], none⟩ ['h', 'é', 'l', 'l', 'o']).1 rfl
  ⟨w.2.2.2.2.2.2.2.2 (by decide), by decide, v.2.2.2.2.2.1⟩

/-- C8 fails on the code: for the text `a`, U+0000, `b` the text `on_message`
on its UTF-8 encoding emits `message` with the text `a` only, and for the text
U+FEFF, `a` it emits `message` with the text `a` only. -/
theorem on_message_loses_text :
    (on_message ⟨[], some 1⟩ (some 1) (toUtf8 ['a', Char.ofNat 0, 'b'])).2.signals
      = [Signal.message ['a']]
    ∧ (on_message ⟨[], some 1⟩ (some 1) (toUtf8 [Char.ofNat 0xFEFF, 'a'])).2.signals
      = [Signal.message ['a']] := by
  decide

/-- C8 as amended: for every text `t` that contains no U+0000 character and
does not begin with U+FEFF, the text `on_message` on the UTF-8 encoding of `t`
emits exactly one event, `message` with the text `t`, makes no library call,
returns normally and leaves the handler, so the stored session handle,
unchanged. -/
theorem on_message_round_trip (h : WebSocketWrapperPrivate) (con : session_ptr) (t : QString)
    (hnul : Char.ofNat 0 ∉ t) (hbom : t.head? ≠ some (Char.ofNat 0xFEFF)) :
    (h.on_message con (toUtf8 t)).2.signals = [Signal.message t]
    ∧ (h.on_message con (toUtf8 t)).2.calls = []
    ∧ (h.on_message con (toUtf8 t)).2.outcome = Outcome.returned
    ∧ (h.on_message con (toUtf8 t)).1 = h := by
  have hdec : fromUtf8 (c_str (toUtf8 t)) = t := by
    rw [c_str_toUtf8, untilNul_of_not_mem t hnul, fromUtf8_toUtf8 t hbom]
  simp [on_message, hdec]

/-- Witness of `on_message_round_trip`: the text `héllo`, whose UTF-8 encoding
is `68 C3 A9 6C 6C 6F`. -/
theorem on_message_round_trip_witness :
    (on_message ⟨[], some 1⟩ (some 1) (toUtf8 ['h', 'é', 'l', 'l', 'o'])).2.signals
        = [Signal.message ['h', 'é', 'l', 'l', 'o']]
    ∧ toUtf8 ['h', 'é', 'l', 'l', 'o'] = [0x68, 0xC3, 0xA9, 0x6C, 0x6C, 0x6F]
    ∧ (on_message ⟨[], some 1⟩ (some 1) (toUtf8 ['h', 'é', 'l', 'l', 'o'])).1
        = ⟨[], some 1⟩ :=
  have w := on_message_round_trip ⟨[], some 1⟩ (some 1) ['h', 'é', 'l', 'l', 'o']
    (by decide) (by decide)
  ⟨w.1, by decide, w.2.2.2⟩

/-! ## The worker `run` -/

theorem isCaught_of_isCString (t : Thrown) (ht : t.isCString = true) : t.isCaught = true := by
  cases t <;> simp [Thrown.isCString] at ht <;> rfl

/-- After a `std::exception` from `connect` the handler has been deleted with
the client when the `catch` clause runs: the clause emits `failed` and then
reads the url of the deleted handler. -/
theorem run_std_exception_after_delete :
    (WebSocketWrapper.run ⟨false, false⟩
        ⟨[], some (RunStep.connect, Thrown.std_exception "Host not found")⟩
        (WebSocketWrapper.create [])).map (fun r => (r.1, r.2.signals, r.2.outcome))
      = some (none, [Signal.failed], Outcome.undefined) := by
  decide

/-- C5 fails on the code: when `connect` throws a value that is neither a
`std::exception` nor a C string, `run` emits no `failed` event and the value
leaves `run`. -/
theorem run_other_escapes :
    (WebSocketWrapper.run ⟨false, false⟩ ⟨[], some (RunStep.connect, Thrown.other 0)⟩
        (WebSocketWrapper.create [])).map (fun r => (r.2.signals, r.2.outcome))
      = some ([], Outcome.threw (Thrown.other 0)) := by
  decide

/-- C5 as amended: for every exception that is a `std::exception` or a C
string (a `char` pointer, null included), raised by any statement of the `try`
block of `run` (the `io_service`, building the client, `init`, `set_header`,
`connect`, the event loop), the matching `catch` clause emits exactly one
`failed` event after what the `try` block emitted, which is the only event of
the run when the statement is not the event loop, and the exception does not
leave `run`: `run` returns normally or reaches the read of the deleted
handler.  It returns normally when the exception is a C string, or comes from
the constructor of the `io_service`, and no callback threw before it. -/
theorem run_catches (b : Build) (a : Attempt) (h : WebSocketWrapperPrivate)
    (s : RunStep) (t : Thrown) (hr : a.raised = some (s, t)) (ht : t.isCaught = true) :
    ∃ r, WebSocketWrapper.run b a ⟨some h⟩ = some r
      ∧ r.2.signals = (WebSocketWrapper.tryBlock b a h).2.signals ++ [Signal.failed]
      ∧ (s ≠ RunStep.io_service_run → r.2.signals = [Signal.failed])
      ∧ (r.2.outcome = Outcome.returned ∨ r.2.outcome = Outcome.undefined)
      ∧ ((s = RunStep.io_service_run → callbacksReturn b a.delivered) →
          (t.isCString = true ∨ s = RunStep.io_service) → r.2.outcome = Outcome.returned) := by
  obtain ⟨r, hrun, hsig, hno, hone⟩ := run_caught_signals b a h s t hr ht
  refine ⟨r, hrun, hsig, hone, ?_, ?_⟩
  · obtain ⟨u, hu, huc⟩ := tryBlock_raised_caught b a h s t hr ht
    have hr2 : r = _ := (Option.some.inj hrun).symm
    rw [hr2]
    simp only [Effects.append, hu]
    cases u <;> simp [Thrown.isCaught] at huc <;>
      cases a.handedOver <;> simp [WebSocketWrapper.catchClauses]
  · intro hcb hcs
    obtain ⟨r2, hrun2, hret⟩ := run_caught_returned b a h s t hr hcb
      (hcs.imp id (fun hs => ⟨ht, hs⟩))
    rw [hrun] at hrun2
    rw [Option.some.inj hrun2]
    exact hret

/-- Witness of `run_catches`: `connect` throws the C string `Host not found`;
`run` emits `failed` once and returns. -/
theorem run_catches_witness :
    ∃ r, WebSocketWrapper.run ⟨false, false⟩
          ⟨[], some (RunStep.connect, Thrown.c_string "Host not found")⟩
          ⟨some ⟨[], none⟩⟩ = some r
      ∧ r.2.signals = [Signal.failed] ∧ r.2.outcome = Outcome.returned :=
  have ⟨r, h1, _, h3, _, h5⟩ := run_catches ⟨false, false⟩
    ⟨[], some (RunStep.connect, Thrown.c_string "Host not found")⟩ ⟨[], none⟩
    RunStep.connect (Thrown.c_string "Host not found") rfl rfl
  ⟨r, h1, h3 (by decide), h5 (fun hs => absurd hs (by decide)) (Or.inl rfl)⟩

/-- C4 fails on the code: when the library delivers `on_open`, `on_close` and
then `on_fail`, the run emits `opened`, `closed`, `failed`: two terminal
events, the second after the first. -/
theorem two_terminal_events :
    (WebSocketWrapper.run ⟨false, false⟩
        ⟨[Callback.on_open (some 1), Callback.on_close (some 1), Callback.on_fail (some 1)], none⟩
        (WebSocketWrapper.create [])).map (fun r => r.2.signals)
      = some [Signal.opened, Signal.closed, Signal.failed]
    ∧ terminalCount [Signal.opened, Signal.closed, Signal.failed] = 2
    ∧ ¬ OneTerminalLast [Signal.opened, Signal.closed, Signal.failed] := by
  decide

/-- C4 as amended: for every connection attempt in which either (a) the
library raises no exception, no callback throws, and of the callbacks
delivered the last, and only the last, is terminal (`on_close` or `on_fail`),
or (b) the library delivers no terminal callback and raises an exception that
is a C string, or a `std::exception` from the constructor of the
`io_service`, with no callback throwing before it, `run` returns normally and
the emitted event sequence contains exactly one terminal event, with no event
after it. -/
theorem single_terminal_attempt (b : Build) (a : Attempt) (h : WebSocketWrapperPrivate)
    (hA : (a.raised = none ∧ callbacksReturn b a.delivered
            ∧ ∃ pre t, a.delivered = pre ++ [t] ∧ t.isTerminal = true
              ∧ ∀ c ∈ pre, c.isTerminal = false)
        ∨ (∃ s t, a.raised = some (s, t)
            ∧ (t.isCString = true ∨ (t.isCaught = true ∧ s = RunStep.io_service))
            ∧ (s = RunStep.io_service_run → callbacksReturn b a.delivered)
            ∧ ∀ c ∈ a.delivered, c.isTerminal = false)) :
    ∃ r, WebSocketWrapper.run b a ⟨some h⟩ = some r
      ∧ r.2.outcome = Outcome.returned
      ∧ OneTerminalLast r.2.signals := by
  rcases hA with ⟨hr, hcb, pre, t, hd, ht, hpre⟩ | ⟨s, t, hr, ht, hcb, hd⟩
  · have hl := tryBlock_loop b a h (fun s1 t1 h1 => by rw [hr] at h1; cases h1)
    have hsig := ioServiceRun_signals b a h
    have hout := ioServiceRun_outcome b a h
    have ho := deliverAll_returned b a.delivered h hcb
    refine ⟨_, rfl, ?_, ?_⟩
    · simp [Effects.append, hl.2, hout, ho, Attempt.raisedAt, hr,
        WebSocketWrapper.catchClauses]
    · rcases deliverAll_snoc b pre t h hpre ht with ⟨_, hone⟩ | ⟨⟨w, ho2⟩, _⟩
      · rw [← hd] at hone
        simpa [Effects.append, hl.1, hl.2, hsig, hout, ho, Attempt.raisedAt, hr,
          WebSocketWrapper.catchClauses] using hone
      · rw [← hd, ho] at ho2
        cases ho2
  · have htc : t.isCaught = true := by
      rcases ht with ht | ⟨ht, _⟩
      · exact isCaught_of_isCString t ht
      · exact ht
    obtain ⟨r, h1, h2, _, _⟩ := run_caught_signals b a h s t hr htc
    obtain ⟨r2, h1b, hret⟩ := run_caught_returned b a h s t hr hcb ht
    rw [h1] at h1b
    rw [← Option.some.inj h1b] at hret
    refine ⟨r, h1, hret, ?_⟩
    rw [h2]
    refine oneTerminalLast_snoc _ _ ?_ rfl
    by_cases hs : s = RunStep.io_service_run
    · subst hs
      have hl := tryBlock_loop b a h (fun s1 t1 h1 => by rw [hr] at h1; cases h1; rfl)
      rw [hl.1, ioServiceRun_signals]
      exact deliverAll_nonterminal b a.delivered h hd
    · rw [(tryBlock_startup b a h s t hr hs).1]
      rfl

/-- Witness of `single_terminal_attempt`: the library opens the connection,
delivers one text message and closes. -/
theorem single_terminal_attempt_witness :
    ∃ r, WebSocketWrapper.run ⟨false, false⟩
          ⟨[Callback.on_open (some 1), Callback.on_message (some 1) [0x68, 0x69],
            Callback.on_close (some 1)], none⟩ ⟨some ⟨[], none⟩⟩ = some r
      ∧ r.2.outcome = Outcome.returned
      ∧ OneTerminalLast r.2.signals :=
  single_terminal_attempt ⟨false, false⟩ _ ⟨[], none⟩
    (Or.inl ⟨rfl, Or.inl rfl,
      [Callback.on_open (some 1), Callback.on_message (some 1) [0x68, 0x69]],
      Callback.on_close (some 1), rfl, rfl, by decide⟩)

end QmlWebSocket
